import Mathlib

/-!
Verification of the multi-perspective LLM ensemble pipeline
(repository llm-ensemble).

The Python sources are shallowly embedded: pure string-processing helpers
become Lean functions over String (numeric values as exact rationals, so a
Python float literal such as 0.7 is the rational 7/10), and LangGraph node
functions become pure functions from the relevant state fields and the
outcomes of the awaited adapter calls (an adapter call outcome is an
Except String String whose error case models the awaited call raising an
exception with the given message) to the dictionary of state updates the
node returns.

Python conventions modelled here:
* str.split with a separator keeps empty pieces, so splitting the empty
  string gives a one-element list holding the empty string;
* str.strip removes ASCII whitespace from both ends;
* s.split(sep, 1)[1] is the text after the first separator occurrence and
  raises IndexError when the separator is absent, which the sources catch;
  this is modelled by an Option result whose none case maps to the except
  branch of the enclosing try block;
* float(s) parses an optionally signed decimal literal with an optional
  fraction and exponent after stripping whitespace; it is modelled exactly
  over the rationals.  The special forms inf and nan and digit
  underscores, which never arise in any claim, are modelled as parse
  failures, and the final rounding of a parsed literal to a binary double
  is immaterial to every claim, which only compare parsed values,
  defaults and clamps.
-/

namespace LLMEnsemble

/-! ## Python string primitives -/

/-- ASCII whitespace as recognised by Python str.strip. -/
def pyWhitespace (c : Char) : Bool :=
  c = ' ' || c = '\t' || c = '\n' || c = '\x0d' || c = '\x0b' || c = '\x0c'

/-- Python str.strip: remove leading and trailing whitespace. -/
def pyStrip (s : String) : String :=
  (((s.data.dropWhile pyWhitespace).reverse.dropWhile pyWhitespace).reverse).asString

/-- Splitting a character list at every occurrence of a separator
character, keeping empty pieces, as Python str.split(sep) does. -/
def splitCharAux (sep : Char) : List Char → List Char → List (List Char)
  | [], acc => [acc.reverse]
  | c :: cs, acc =>
    if c = sep then acc.reverse :: splitCharAux sep cs []
    else splitCharAux sep cs (c :: acc)

/-- Python content.split on the newline character. -/
def pySplitLines (s : String) : List String :=
  (splitCharAux '\n' s.data []).map List.asString

/-- Boolean list prefix test. -/
def isPrefixList : List Char → List Char → Bool
  | [], _ => true
  | _ :: _, [] => false
  | a :: as, b :: bs => a = b && isPrefixList as bs

/-- Python s.startswith(pre). -/
def pyStartsWith (s pre : String) : Bool :=
  isPrefixList pre.data s.data

/-- The characters after the first occurrence of a separator, none when
the separator is absent. -/
def afterCharAux (sep : Char) : List Char → Option (List Char)
  | [] => none
  | c :: cs => if c = sep then some cs else afterCharAux sep cs

/-- Python line.split(sep, 1)[1] as an Option; none models the IndexError
raised when the separator is absent. -/
def pyAfterFirst (sep : Char) (s : String) : Option String :=
  (afterCharAux sep s.data).map List.asString

/-- Python newline.join(pieces). -/
def joinNewline : List String → String
  | [] => ""
  | [x] => x
  | x :: xs => x ++ "\n" ++ joinNewline xs

/-! ## Python float literals

Parsing is split into a character-level stage recognising the shape of
the literal and an arithmetic stage computing its exact rational value;
their composition is the model of Python float(s). -/

/-- Numeric value of a run of decimal digits. -/
def digitsVal (cs : List Char) : Nat :=
  cs.foldl (fun a c => a * 10 + (c.toNat - 48)) 0

/-- The recognised pieces of a decimal literal: sign, integer digits,
fraction digits, exponent sign and exponent digits. -/
structure FloatParts where
  neg : Bool
  intDigits : List Char
  fracDigits : List Char
  expNeg : Bool
  expDigits : List Char
deriving DecidableEq, Repr

/-- Exact rational value of a recognised decimal literal. -/
def partsVal (p : FloatParts) : ℚ :=
  let mant : ℚ :=
    (digitsVal p.intDigits : ℚ) + (digitsVal p.fracDigits : ℚ) / 10 ^ p.fracDigits.length
  let scaled : ℚ :=
    if p.expNeg then mant / 10 ^ digitsVal p.expDigits
    else mant * 10 ^ digitsVal p.expDigits
  if p.neg then -scaled else scaled

/-- A leading plus or minus sign, removed from the character run. -/
def stripSign (cs : List Char) : Bool × List Char :=
  match cs with
  | '-' :: r => (true, r)
  | '+' :: r => (false, r)
  | _ => (false, cs)

/-- Exponent of a decimal literal: an optionally signed nonempty digit
run with nothing after it. -/
def parseExpDigits (cs : List Char) : Option (Bool × List Char) :=
  let s := stripSign cs
  let ds := s.2.takeWhile Char.isDigit
  let rest := s.2.dropWhile Char.isDigit
  if ds.isEmpty || !rest.isEmpty then none else some (s.1, ds)

/-- Shape of a Python float literal in the stripped input: sign, digits,
an optional point with digits, an optional exponent; at least one digit
around the point and full consumption of the input are required. -/
def pyFloatParts (s : String) : Option FloatParts :=
  let s0 := stripSign (pyStrip s).data
  let ip := s0.2.takeWhile Char.isDigit
  let rest := s0.2.dropWhile Char.isDigit
  match rest with
  | [] => if ip.isEmpty then none else some ⟨s0.1, ip, [], false, []⟩
  | '.' :: r =>
    let fp := r.takeWhile Char.isDigit
    let rest2 := r.dropWhile Char.isDigit
    if ip.isEmpty && fp.isEmpty then none
    else
      match rest2 with
      | [] => some ⟨s0.1, ip, fp, false, []⟩
      | e :: r2 =>
        if e = 'e' || e = 'E' then
          (parseExpDigits r2).map (fun ep => ⟨s0.1, ip, fp, ep.1, ep.2⟩)
        else none
  | e :: r2 =>
    if (e = 'e' || e = 'E') && !ip.isEmpty then
      (parseExpDigits r2).map (fun ep => ⟨s0.1, ip, [], ep.1, ep.2⟩)
    else none

/-- Python float(s) over exact rationals; none models a ValueError. -/
def pyFloat (s : String) : Option ℚ :=
  (pyFloatParts s).map partsVal

example : pyFloatParts "3.5" = some ⟨false, ['3'], ['5'], false, []⟩ := by decide
example : pyFloatParts "hello" = none := by decide
example : pyFloatParts "" = none := by decide
example : pyFloatParts " 0.9 " = some ⟨false, ['0'], ['9'], false, []⟩ := by decide
example : pyStrip "  ab c  " = "ab c" := by decide
example : pySplitLines "a\nb" = ["a", "b"] := by decide
example : pySplitLines "" = [""] := by decide
example : pyAfterFirst ':' "A: b:c" = some " b:c" := by decide
example : pyAfterFirst ':' "no colon" = none := by decide
example : pyStartsWith "CONFIDENCE: 3" "CONFIDENCE:" = true := by decide

/-! ## Field extraction (graph/multi_perspective_nodes.py)

MultiPerspectiveNodes._extract_section walks the lines of a response:
a line whose stripped form starts with the requested tag followed by a
colon begins (or resumes) capture with the text after the first colon,
stripped; while capturing, a line starting with any recognised tag stops
the walk; other lines are captured verbatim while capturing.  The
captured pieces are joined with newlines and stripped.  The whole body
sits in a try block whose bare except returns the full content; the only
reachable raise is the IndexError of split(colon, 1)[1], modelled by the
none case below. -/

/-- The recognised tags that end a captured section in
MultiPerspectiveNodes._extract_section. -/
def sectionBreakTags : List String :=
  ["PERSPECTIVE_ANALYSIS", "REASONING", "CONFIDENCE", "ENVIRONMENTAL_ANALYSIS",
   "COMPARISON", "SYNTHESIS", "TECHNOLOGICAL_ANALYSIS", "COMPLETE_SYNTHESIS",
   "FINAL_CONFIDENCE"]

/-- The line walk of MultiPerspectiveNodes._extract_section; none models
an IndexError escaping to the bare except branch. -/
def extractLoop (breakTags : List String) (sectionName : String) :
    List String → Bool → List String → Option (List String)
  | [], _, acc => some acc
  | line :: rest, capturing, acc =>
    if pyStartsWith (pyStrip line) (sectionName ++ ":") then
      match pyAfterFirst ':' line with
      | none => none
      | some s => extractLoop breakTags sectionName rest true (acc ++ [pyStrip s])
    else if capturing && breakTags.any (fun t => pyStartsWith (pyStrip line) (t ++ ":")) then
      some acc
    else if capturing then
      extractLoop breakTags sectionName rest capturing (acc ++ [line])
    else
      extractLoop breakTags sectionName rest capturing acc

/-- MultiPerspectiveNodes._extract_section. -/
def extractSection (content sectionName : String) : String :=
  match extractLoop sectionBreakTags sectionName (pySplitLines content) false [] with
  | some acc => pyStrip (joinNewline acc)
  | none => content

/-- The recognised tags that end a captured section in
MultiPerspectiveNodes._extract_judge_section. -/
def judgeSectionBreakTags : List String :=
  ["EVALUATION", "AGREEMENTS_DISAGREEMENTS", "BEST_INSIGHTS", "FINAL_SYNTHESIS",
   "CLAUDE_SCORE", "GPT_SCORE", "GROK_SCORE"]

/-- MultiPerspectiveNodes._extract_judge_section: the same walk as
_extract_section over the judge break tags. -/
def extractJudgeSection (content sectionName : String) : String :=
  match extractLoop judgeSectionBreakTags sectionName (pySplitLines content) false [] with
  | some acc => pyStrip (joinNewline acc)
  | none => content

/-- The line scan of MultiPerspectiveNodes._extract_confidence; a
ValueError of float or an IndexError of the split lands in the bare
except returning 0.7. -/
def extractConfidenceGo : List String → ℚ
  | [] => 7 / 10
  | line :: rest =>
    if pyStartsWith (pyStrip line) "CONFIDENCE:" ||
        pyStartsWith (pyStrip line) "FINAL_CONFIDENCE:" then
      match pyAfterFirst ':' line with
      | none => 7 / 10
      | some s =>
        match pyFloat (pyStrip s) with
        | none => 7 / 10
        | some v => v
    else extractConfidenceGo rest

/-- MultiPerspectiveNodes._extract_confidence: scan for the first line
whose stripped form starts with a confidence tag, parse the text after
the first colon as a float and return it unchanged; a missing tag, a
parse failure or an IndexError yields the default 0.7. -/
def extractConfidence (content : String) : ℚ :=
  extractConfidenceGo (pySplitLines content)

/-- The line scan of MultiPerspectiveNodes._extract_judge_score. -/
def extractJudgeScoreGo (scoreName : String) : List String → ℚ
  | [] => 1 / 2
  | line :: rest =>
    if pyStartsWith (pyStrip line) (scoreName ++ ":") then
      match pyAfterFirst ':' line with
      | none => 1 / 2
      | some s =>
        match pyFloat (pyStrip s) with
        | none => 1 / 2
        | some v => max 0 (min 1 v)
    else extractJudgeScoreGo scoreName rest

/-- MultiPerspectiveNodes._extract_judge_score: scan for the first line
whose stripped form starts with the score tag, parse the text after the
first colon as a float and clamp it to the unit interval; a missing tag,
a parse failure or an IndexError yields the default 0.5. -/
def extractJudgeScore (content scoreName : String) : ℚ :=
  extractJudgeScoreGo scoreName (pySplitLines content)

/-! ## Field extraction (utils/judge.py)

UnbiasedJudge._extract_section differs from the node version: the text
after the colon on the tag line is appended only when nonempty, the
break test uses a fixed tuple of colon-terminated prefixes, and an empty
join result falls back to returning the full content. -/

/-- The tuple of prefixes ending capture in UnbiasedJudge._extract_section. -/
def judgeBreakPrefixes : List String :=
  ["ANALYSIS:", "SYNTHESIS:", "SCORES:", "REASONING:",
   "CLAUDE_SCORE:", "GPT_SCORE:", "GROK_SCORE:"]

/-- The line walk of UnbiasedJudge._extract_section. -/
def judgeUtilLoop (sectionName : String) :
    List String → Bool → List String → Option (List String)
  | [], _, acc => some acc
  | line :: rest, capturing, acc =>
    if pyStartsWith (pyStrip line) (sectionName ++ ":") then
      match pyAfterFirst ':' line with
      | none => none
      | some s =>
        let afterColon := pyStrip s
        judgeUtilLoop sectionName rest true
          (if afterColon = "" then acc else acc ++ [afterColon])
    else if capturing && judgeBreakPrefixes.any (fun t => pyStartsWith (pyStrip line) t) then
      some acc
    else if capturing then
      judgeUtilLoop sectionName rest capturing (acc ++ [line])
    else
      judgeUtilLoop sectionName rest capturing acc

/-- UnbiasedJudge._extract_section: as the node version, but an empty
result (in particular a missing section) returns the full content. -/
def judgeUtilExtractSection (content sectionName : String) : String :=
  match judgeUtilLoop sectionName (pySplitLines content) false [] with
  | some acc =>
    let result := pyStrip (joinNewline acc)
    if result = "" then content else result
  | none => content

/-- Python s.replace(bracket, empty) for both square brackets. -/
def removeBrackets (s : String) : String :=
  (s.data.filter (fun c => !(c = '[' || c = ']'))).asString

/-- The line scan of UnbiasedJudge._extract_score. -/
def judgeUtilExtractScoreGo (scoreName : String) : List String → ℚ
  | [] => 1 / 2
  | line :: rest =>
    if pyStartsWith (pyStrip line) (scoreName ++ ":") then
      match pyAfterFirst ':' line with
      | none => 1 / 2
      | some s =>
        match pyFloat (pyStrip (removeBrackets (pyStrip s))) with
        | none => 1 / 2
        | some v => max 0 (min 1 v)
    else judgeUtilExtractScoreGo scoreName rest

/-- UnbiasedJudge._extract_score: as the node judge score, but square
brackets are removed from the value text before the parse and clamp. -/
def judgeUtilExtractScore (content scoreName : String) : ℚ :=
  judgeUtilExtractScoreGo scoreName (pySplitLines content)

example : extractSection "PERSPECTIVE_ANALYSIS: hi\nmore\nREASONING: r" "PERSPECTIVE_ANALYSIS"
    = "hi\nmore" := by decide
example : extractSection "no tags here" "REASONING" = "" := by decide
example : judgeUtilExtractSection "no tags here" "ANALYSIS" = "no tags here" := by decide
example : judgeUtilExtractSection "ANALYSIS: a\nb\nSYNTHESIS: s" "ANALYSIS" = "a\nb" := by decide

/-! ## Data model (graph/multi_perspective_state.py) -/

/-- Perspective enumeration. -/
inductive Perspective where
  | economic
  | environmental
  | technological
deriving DecidableEq, Repr

/-- ModelType enumeration. -/
inductive ModelType where
  | claude
  | gpt
  | grok
  | judge
deriving DecidableEq, Repr

/-- PerspectiveResponse model. -/
structure PerspectiveResponse where
  perspective : Perspective
  content : String
  reasoning : String := ""
  confidence : ℚ := 0
deriving DecidableEq, Repr

/-- BaselineResponse model. -/
structure BaselineResponse where
  model_type : ModelType
  content : String
  confidence : ℚ := 0
deriving DecidableEq, Repr

/-- MultiPerspectiveAnalysis model; the Python fields defaulting to None
are Options, the string and number fields keep their defaults. -/
structure MultiPerspectiveAnalysis where
  model_type : ModelType
  step1_economic : Option PerspectiveResponse := none
  step2_economic_environmental : String := ""
  step3_complete_synthesis : String := ""
  final_confidence : ℚ := 0
  reasoning_evolution : List String := []
deriving DecidableEq, Repr

/-- InputPackage model; the perspective-specific guidance dictionary is
an association list from perspective name to guidance text. -/
structure InputPackage where
  query : String
  perspective_1 : String := "economic"
  perspective_2 : String := "environmental"
  perspective_3 : String := "technological"
  universal_cot : String := ""
  perspective_specific_cots : List (String × String) := []
deriving DecidableEq, Repr

/-- The fields of MultiPerspectiveEnsembleState read or written by the
modelled nodes. -/
structure EnsembleState where
  input_package : InputPackage
  claude_baseline : Option BaselineResponse := none
  gpt_baseline : Option BaselineResponse := none
  grok_baseline : Option BaselineResponse := none
  claude_analysis : Option MultiPerspectiveAnalysis := none
  gpt_analysis : Option MultiPerspectiveAnalysis := none
  grok_analysis : Option MultiPerspectiveAnalysis := none
  final_synthesis : String := ""
  quality_scores : List (String × ℚ) := []
  baselines_complete : Bool := false
  step1_complete : Bool := false
  step2_complete : Bool := false
  step3_complete : Bool := false
  judging_complete : Bool := false
deriving DecidableEq, Repr

/-! ## Stage 1: baseline node (graph/multi_perspective_nodes.py)

Each _get_baseline helper awaits its backend client and wraps the
outcome itself: a successful call becomes a BaselineResponse with the
returned text and confidence 0.5, a raised exception is caught inside
the helper and becomes a BaselineResponse with the message rendered
after the Error prefix and confidence 0.0.  Because the helpers never
raise, the isinstance Exception guards of baseline_analysis_node are
never taken and every slot of the update dictionary is set. -/

/-- One _get_baseline helper: the adapter call outcome to the stored
BaselineResponse. -/
def getBaseline (mt : ModelType) (call : Except String String) : BaselineResponse :=
  match call with
  | .ok content => { model_type := mt, content := content, confidence := 1 / 2 }
  | .error e => { model_type := mt, content := "Error: " ++ e, confidence := 0 }

/-- The update dictionary returned by baseline_analysis_node, restricted
to the baseline slots and completion flag (the judge initial assessment
is orthogonal to every claim). -/
structure BaselineUpdates where
  claude_baseline : Option BaselineResponse
  gpt_baseline : Option BaselineResponse
  grok_baseline : Option BaselineResponse
  baselines_complete : Bool
deriving DecidableEq, Repr

/-- baseline_analysis_node as a function of the three adapter call
outcomes. -/
def baselineAnalysisNode (rc rg rk : Except String String) : BaselineUpdates :=
  { claude_baseline := some (getBaseline .claude rc)
    gpt_baseline := some (getBaseline .gpt rg)
    grok_baseline := some (getBaseline .grok rk)
    baselines_complete := true }

/-! ## Stage 3 (step 2) and stage 4 (step 3) nodes

_step2_analysis_claude returns a fixed string when the stage-1 analysis
is missing, otherwise the raw response text of the adapter call; an
exception of the call is caught inside the helper and rendered as an
error string.  The node then writes the helper result into the step-2
slot of the existing analysis whenever that analysis exists.  The gpt
and grok helpers are verbatim copies over their own slots.

_step3_synthesis_claude parses the adapter response into a synthesis
section and a confidence; an exception is caught inside the helper and
becomes an error string with confidence 0.0.  The node writes both into
the existing analysis whenever it exists. -/

/-- One _step2_analysis helper as a function of the stored analysis and
the adapter call outcome. -/
def step2AnalysisOne (analysis : Option MultiPerspectiveAnalysis)
    (call : Except String String) : String :=
  match analysis with
  | none => "No economic analysis available for comparison"
  | some a =>
    match a.step1_economic with
    | none => "No economic analysis available for comparison"
    | some _ =>
      match call with
      | .ok content => content
      | .error e => "Error in Step 2 analysis: " ++ e

/-- The per-model update of step2_environmental_analysis_node: the slot
is rewritten only when the analysis object exists. -/
def step2Update (analysis : Option MultiPerspectiveAnalysis)
    (call : Except String String) : Option MultiPerspectiveAnalysis :=
  analysis.map fun a =>
    { a with
      step2_economic_environmental := step2AnalysisOne analysis call
      reasoning_evolution :=
        a.reasoning_evolution ++ ["Step 2: Environmental comparison completed"] }

/-- The update dictionary of step2_environmental_analysis_node (a none
slot means the model's key is absent from the dictionary and the state
keeps its previous value). -/
structure Step2Updates where
  step2_complete : Bool
  claude_analysis : Option MultiPerspectiveAnalysis
  gpt_analysis : Option MultiPerspectiveAnalysis
  grok_analysis : Option MultiPerspectiveAnalysis
deriving DecidableEq, Repr

/-- step2_environmental_analysis_node as a function of the state and the
three adapter call outcomes. -/
def step2Node (st : EnsembleState) (cc cg ck : Except String String) : Step2Updates :=
  { step2_complete := true
    claude_analysis := step2Update st.claude_analysis cc
    gpt_analysis := step2Update st.gpt_analysis cg
    grok_analysis := step2Update st.grok_analysis ck }

/-- One _step3_synthesis helper as a function of the adapter call
outcome: the parsed synthesis text and confidence, or the caught-error
placeholder pair. -/
def step3SynthesisOne (call : Except String String) : String × ℚ :=
  match call with
  | .ok content => (extractSection content "COMPREHENSIVE_SYNTHESIS", extractConfidence content)
  | .error e => ("Error in final synthesis: " ++ e, 0)

/-- The per-model update of step3_technological_synthesis_node. -/
def step3Update (analysis : Option MultiPerspectiveAnalysis)
    (call : Except String String) : Option MultiPerspectiveAnalysis :=
  analysis.map fun a =>
    { a with
      step3_complete_synthesis := (step3SynthesisOne call).1
      final_confidence := (step3SynthesisOne call).2
      reasoning_evolution :=
        a.reasoning_evolution ++ ["Step 3: Complete synthesis with technological perspective"] }

/-- The update dictionary of step3_technological_synthesis_node. -/
structure Step3Updates where
  step3_complete : Bool
  claude_analysis : Option MultiPerspectiveAnalysis
  gpt_analysis : Option MultiPerspectiveAnalysis
  grok_analysis : Option MultiPerspectiveAnalysis
deriving DecidableEq, Repr

/-- step3_technological_synthesis_node as a function of the state and
the three adapter call outcomes. -/
def step3Node (st : EnsembleState) (cc cg ck : Except String String) : Step3Updates :=
  { step3_complete := true
    claude_analysis := step3Update st.claude_analysis cc
    gpt_analysis := step3Update st.gpt_analysis cg
    grok_analysis := step3Update st.grok_analysis ck }

/-! ## Stage 6: performance_logging_node, length improvement metrics

When the final synthesis is nonempty, for every present baseline the
node records the ratio of the synthesis length to the baseline content
length, with a zero baseline length replaced by one and the ratio
capped at five. -/

/-- The value min of len(ensemble) over max of len(baseline) and one,
and 5.0, stored under the length improvement key. -/
def cappedLengthImprovement (ensemble baselineContent : String) : ℚ :=
  min ((ensemble.length : ℚ) / ((max baselineContent.length 1 : ℕ) : ℚ)) 5

/-- The three per-backend length improvement entries of the improvement
metrics dictionary built by performance_logging_node; a none means the
key is absent. -/
structure LengthImprovements where
  claude_length_improvement : Option ℚ
  gpt_length_improvement : Option ℚ
  grok_length_improvement : Option ℚ
deriving DecidableEq, Repr

/-- The length-improvement portion of performance_logging_node: entries
are produced only when the final synthesis is nonempty, one per present
baseline. -/
def performanceLengthMetrics (st : EnsembleState) : LengthImprovements :=
  if st.final_synthesis = "" then
    { claude_length_improvement := none
      gpt_length_improvement := none
      grok_length_improvement := none }
  else
    { claude_length_improvement :=
        st.claude_baseline.map fun b => cappedLengthImprovement st.final_synthesis b.content
      gpt_length_improvement :=
        st.gpt_baseline.map fun b => cappedLengthImprovement st.final_synthesis b.content
      grok_length_improvement :=
        st.grok_baseline.map fun b => cappedLengthImprovement st.final_synthesis b.content }

/-! ## Orchestrator (graph/multi_perspective_ensemble_graph.py)

validate_and_prepare_inputs builds the InputPackage and calls its
validate_inputs, which raises a ValueError when the stripped query is
empty.  process_multi_perspective_query wraps the validation in a try
block returning an error dictionary with the validation message, the
query and the elapsed time; only after successful validation is the
graph invoked.  The graph invocation is abstracted as a function from
the InputPackage to an arbitrary result type, so that independence of
the error path from the pipeline is expressible. -/

/-- InputPackage.validate_inputs: error models the raised ValueError. -/
def validateInputs (p : InputPackage) : Except String Bool :=
  if pyStrip p.query = "" then .error "Query is required" else .ok true

/-- The InputPackage built by validate_and_prepare_inputs. -/
def mkInputPackage (query p1 p2 p3 universal c1 c2 c3 : String) : InputPackage :=
  { query := query
    perspective_1 := p1
    perspective_2 := p2
    perspective_3 := p3
    universal_cot := universal
    perspective_specific_cots := [(p1, c1), (p2, c2), (p3, c3)] }

/-- The error dictionary returned by process_multi_perspective_query
when input validation fails. -/
structure ValidationErrorResult where
  error : String
  query : String
  processing_time : ℚ
deriving DecidableEq, Repr

/-- process_multi_perspective_query up to the graph invocation: the
pipeline argument stands for graph.ainvoke and the result assembly, and
the elapsed argument for the wall-clock delta.  The success branch of
the source (including its own try block around the graph run) is
collapsed into the pipeline call, which the validation-failure branch
never reaches. -/
def processQuery {α : Type} (pipeline : InputPackage → α)
    (query p1 p2 p3 universal c1 c2 c3 : String) (elapsed : ℚ) :
    Except ValidationErrorResult α :=
  let pkg := mkInputPackage query p1 p2 p3 universal c1 c2 c3
  match validateInputs pkg with
  | .error e =>
    .error { error := "Input validation failed: " ++ e
             query := query
             processing_time := elapsed }
  | .ok _ => .ok (pipeline pkg)

/-! ## Advantage metrics (graph/multi_perspective_ensemble_graph.py)

_calculate_advantage_metrics collects the final confidences of the
present analyses, fixes the baseline confidence list at three halves
regardless of the stored baseline responses, and when at least one
final confidence exists records the difference of the two averages as
the confidence improvement entry. -/

/-- The final confidence list of _calculate_advantage_metrics. -/
def finalConfidences (st : EnsembleState) : List ℚ :=
  (match st.claude_analysis with
   | some a => [a.final_confidence]
   | none => []) ++
  (match st.gpt_analysis with
   | some a => [a.final_confidence]
   | none => []) ++
  (match st.grok_analysis with
   | some a => [a.final_confidence]
   | none => [])

/-- The confidence improvement entry of _calculate_advantage_metrics;
none means the key is absent.  The baseline confidence list is the
hard-coded constant of the source. -/
def advantageConfidenceImprovement (st : EnsembleState) : Option ℚ :=
  let fcs := finalConfidences st
  let baseline_confidences : List ℚ := [1 / 2, 1 / 2, 1 / 2]
  if fcs = [] then none
  else
    some (fcs.sum / (fcs.length : ℚ) -
      baseline_confidences.sum / (baseline_confidences.length : ℚ))

/-! ## Progress channel (backend_websocket_server.py)

handle_client_message decodes the payload as JSON; a decode failure is
answered with a fixed error event, a decoded command dispatches on its
type field, unknown types are answered with an error event naming the
type, and no branch closes the connection.  The payload is modelled as
already decoded or not, the type field as the optional string
data.get(type), and the handler result as the reply sent plus whether
the connection was dropped. -/

/-- An incoming client payload: undecodable, or decoded with an
optional type field. -/
inductive ClientMessage where
  | undecodable
  | decoded (msgType : Option String)
deriving DecidableEq, Repr

/-- The reply produced by handle_client_message. -/
inductive ServerReply where
  | startAnalysis
  | pong
  | errorEvent (message : String)
deriving DecidableEq, Repr

/-- The outcome of one handle_client_message call. -/
structure HandlerResult where
  reply : ServerReply
  connectionClosed : Bool
deriving DecidableEq, Repr

/-- Python str of data.get(type): the string itself, or None rendered
into the f-string. -/
def pyShowOptStr : Option String → String
  | some t => t
  | none => "None"

/-- handle_client_message. -/
def handleClientMessage : ClientMessage → HandlerResult
  | .undecodable => { reply := .errorEvent "Invalid JSON format", connectionClosed := false }
  | .decoded mt =>
    if mt = some "start_analysis" then
      { reply := .startAnalysis, connectionClosed := false }
    else if mt = some "ping" then
      { reply := .pong, connectionClosed := false }
    else
      { reply := .errorEvent ("Unknown message type: " ++ pyShowOptStr mt)
        connectionClosed := false }

/-! ## Specification-side helpers

The scans above walk lines with early return; the helpers below name
the first matching line and the parsed value of a line, so that the
theorems can speak about them directly. -/

/-- A line whose stripped form starts with one of the two confidence
tags of _extract_confidence. -/
def confidenceTagMatch (l : String) : Bool :=
  pyStartsWith (pyStrip l) "CONFIDENCE:" || pyStartsWith (pyStrip l) "FINAL_CONFIDENCE:"

/-- A line whose stripped form starts with the given tag and a colon. -/
def tagMatch (tag l : String) : Bool :=
  pyStartsWith (pyStrip l) (tag ++ ":")

/-- The float value of the stripped text after the first colon of a
line; none when the colon is absent or the parse fails. -/
def lineFloatValue (line : String) : Option ℚ :=
  (pyAfterFirst ':' line).bind fun s => pyFloat (pyStrip s)

/-- As lineFloatValue, with the bracket removal of
UnbiasedJudge._extract_score applied before the parse. -/
def lineBracketFloatValue (line : String) : Option ℚ :=
  (pyAfterFirst ':' line).bind fun s => pyFloat (pyStrip (removeBrackets (pyStrip s)))

/-! ## Shared lemmas about the scans -/

/-- The confidence scan is the first matching line's parsed value with
the default 0.7 for a missing line or failed parse. -/
theorem extractConfidenceGo_eq_find (lines : List String) :
    extractConfidenceGo lines =
      match lines.find? confidenceTagMatch with
      | none => 7 / 10
      | some l =>
        match lineFloatValue l with
        | none => 7 / 10
        | some v => v := by
  induction lines with
  | nil => rfl
  | cons line rest ih =>
    by_cases h : confidenceTagMatch line = true
    · rw [List.find?_cons_of_pos _ h]
      have h' : (pyStartsWith (pyStrip line) "CONFIDENCE:" ||
          pyStartsWith (pyStrip line) "FINAL_CONFIDENCE:") = true := h
      simp only [lineFloatValue]
      cases hA : pyAfterFirst ':' line with
      | none => simp [extractConfidenceGo, h', hA]
      | some s => cases hF : pyFloat (pyStrip s) <;> simp [extractConfidenceGo, h', hA, hF]
    · have h' : (pyStartsWith (pyStrip line) "CONFIDENCE:" ||
          pyStartsWith (pyStrip line) "FINAL_CONFIDENCE:") = false := by
        simpa [confidenceTagMatch] using h
      rw [List.find?_cons_of_neg _ h]
      simpa [extractConfidenceGo, h'] using ih

/-- The judge score scan of the nodes module is the first matching
line's clamped parsed value with the default 0.5 for a missing line or
failed parse. -/
theorem extractJudgeScoreGo_eq_find (name : String) (lines : List String) :
    extractJudgeScoreGo name lines =
      match lines.find? (tagMatch name) with
      | none => 1 / 2
      | some l =>
        match lineFloatValue l with
        | none => 1 / 2
        | some v => max 0 (min 1 v) := by
  induction lines with
  | nil => rfl
  | cons line rest ih =>
    by_cases h : tagMatch name line = true
    · rw [List.find?_cons_of_pos _ h]
      have h' : pyStartsWith (pyStrip line) (name ++ ":") = true := h
      simp only [lineFloatValue]
      cases hA : pyAfterFirst ':' line with
      | none => simp [extractJudgeScoreGo, h', hA]
      | some s => cases hF : pyFloat (pyStrip s) <;> simp [extractJudgeScoreGo, h', hA, hF]
    · have h' : pyStartsWith (pyStrip line) (name ++ ":") = false := by
        simpa [tagMatch] using h
      rw [List.find?_cons_of_neg _ h]
      simpa [extractJudgeScoreGo, h'] using ih

/-- The judge score scan of the judge module is the first matching
line's clamped bracket-stripped parsed value with the default 0.5 for a
missing line or failed parse. -/
theorem judgeUtilExtractScoreGo_eq_find (name : String) (lines : List String) :
    judgeUtilExtractScoreGo name lines =
      match lines.find? (tagMatch name) with
      | none => 1 / 2
      | some l =>
        match lineBracketFloatValue l with
        | none => 1 / 2
        | some v => max 0 (min 1 v) := by
  induction lines with
  | nil => rfl
  | cons line rest ih =>
    by_cases h : tagMatch name line = true
    · rw [List.find?_cons_of_pos _ h]
      have h' : pyStartsWith (pyStrip line) (name ++ ":") = true := h
      simp only [lineBracketFloatValue]
      cases hA : pyAfterFirst ':' line with
      | none => simp [judgeUtilExtractScoreGo, h', hA]
      | some s =>
        cases hF : pyFloat (pyStrip (removeBrackets (pyStrip s))) <;>
          simp [judgeUtilExtractScoreGo, h', hA, hF]
    · have h' : pyStartsWith (pyStrip line) (name ++ ":") = false := by
        simpa [tagMatch] using h
      rw [List.find?_cons_of_neg _ h]
      simpa [judgeUtilExtractScoreGo, h'] using ih

/-- When no line matches the tag, the node section walk captures
nothing. -/
theorem extractLoop_of_no_match (breakTags : List String) (tag : String)
    (lines : List String)
    (h : ∀ l ∈ lines, pyStartsWith (pyStrip l) (tag ++ ":") = false) :
    extractLoop breakTags tag lines false [] = some [] := by
  induction lines with
  | nil => rfl
  | cons line rest ih =>
    have h0 : pyStartsWith (pyStrip line) (tag ++ ":") = false :=
      h line (List.mem_cons_self line rest)
    simp only [extractLoop, h0, Bool.false_and, if_false]
    exact ih fun l hl => h l (List.mem_cons_of_mem line hl)

/-- When no line matches the tag, the judge section walk captures
nothing. -/
theorem judgeUtilLoop_of_no_match (tag : String) (lines : List String)
    (h : ∀ l ∈ lines, pyStartsWith (pyStrip l) (tag ++ ":") = false) :
    judgeUtilLoop tag lines false [] = some [] := by
  induction lines with
  | nil => rfl
  | cons line rest ih =>
    have h0 : pyStartsWith (pyStrip line) (tag ++ ":") = false :=
      h line (List.mem_cons_self line rest)
    simp only [judgeUtilLoop, h0, Bool.false_and, if_false]
    exact ih fun l hl => h l (List.mem_cons_of_mem line hl)

/-- The empty string never starts with a tag followed by a colon. -/
theorem pyStartsWith_empty_tag (tag : String) :
    pyStartsWith "" (tag ++ ":") = false := by
  show isPrefixList (tag ++ ":").data "".data = false
  have hd : (tag ++ ":").data = tag.data ++ [':'] := rfl
  rw [hd]
  cases tag.data with
  | nil => rfl
  | cons c t => rfl

/-- Extracting any tagged section from the empty string yields the
empty string. -/
theorem extractSection_empty (tag : String) : extractSection "" tag = "" := by
  unfold extractSection
  have h1 : pySplitLines "" = [""] := by decide
  rw [h1]
  have h2 : extractLoop sectionBreakTags tag [""] false [] = some [] := by
    apply extractLoop_of_no_match
    intro l hl
    have : l = "" := by simpa using hl
    rw [this]
    have h3 : pyStrip "" = "" := by decide
    rw [h3]
    exact pyStartsWith_empty_tag tag
  rw [h2]
  rfl

/-- A missing tag yields the empty string in the node section
extractor. -/
theorem extractSection_of_no_match (content tag : String)
    (h : ∀ l ∈ pySplitLines content, pyStartsWith (pyStrip l) (tag ++ ":") = false) :
    extractSection content tag = "" := by
  unfold extractSection
  rw [extractLoop_of_no_match _ _ _ h]
  rfl

/-- A missing tag yields the empty string in the node judge section
extractor. -/
theorem extractJudgeSection_of_no_match (content tag : String)
    (h : ∀ l ∈ pySplitLines content, pyStartsWith (pyStrip l) (tag ++ ":") = false) :
    extractJudgeSection content tag = "" := by
  unfold extractJudgeSection
  rw [extractLoop_of_no_match _ _ _ h]
  rfl

/-- A missing tag yields the full content in the judge module section
extractor. -/
theorem judgeUtilExtractSection_of_no_match (content tag : String)
    (h : ∀ l ∈ pySplitLines content, pyStartsWith (pyStrip l) (tag ++ ":") = false) :
    judgeUtilExtractSection content tag = content := by
  unfold judgeUtilExtractSection
  rw [judgeUtilLoop_of_no_match _ _ h]
  rfl

/-- The clamp used by the judge score extractors lands in the unit
interval. -/
theorem clamp_mem_unit (v : ℚ) : 0 ≤ max 0 (min 1 v) ∧ max 0 (min 1 v) ≤ 1 :=
  ⟨le_max_left 0 _, max_le (by norm_num) (min_le_left 1 v)⟩

/-- The common result shape of the two judge score extractors: the
default for a missing line or failed parse, the clamped value
otherwise. -/
def clampFindResult (f : String → Option ℚ) : Option String → ℚ
  | none => 1 / 2
  | some l =>
    match f l with
    | none => 1 / 2
    | some v => max 0 (min 1 v)

/-- The node judge score scan as a clamped find result. -/
theorem scoreGo_as_clamp (name : String) (lines : List String) :
    extractJudgeScoreGo name lines
      = clampFindResult lineFloatValue (lines.find? (tagMatch name)) := by
  rw [extractJudgeScoreGo_eq_find]
  cases lines.find? (tagMatch name) <;> rfl

/-- The judge module score scan as a clamped find result. -/
theorem judgeUtilGo_as_clamp (name : String) (lines : List String) :
    judgeUtilExtractScoreGo name lines
      = clampFindResult lineBracketFloatValue (lines.find? (tagMatch name)) := by
  rw [judgeUtilExtractScoreGo_eq_find]
  cases lines.find? (tagMatch name) <;> rfl

/-- Every clamped find result lies in the unit interval. -/
theorem clampFindResult_bounds (f : String → Option ℚ) (o : Option String) :
    0 ≤ clampFindResult f o ∧ clampFindResult f o ≤ 1 := by
  cases o with
  | none => norm_num [clampFindResult]
  | some l =>
    cases hfv : f l with
    | none =>
      constructor <;> · simp only [clampFindResult, hfv]; norm_num
    | some v =>
      rw [show clampFindResult f (some l) = max 0 (min 1 v) by simp [clampFindResult, hfv]]
      exact clamp_mem_unit v

/-! ## Claim theorems -/

/-- Claim C6: when one backend raises during stage 1, that backend gets
the degraded placeholder BaselineResponse whose content is the rendered
error text and whose confidence is 0.0, the other two backend slots do
not depend on that outcome, and every backend whose call succeeds gets
its response content with the fixed confidence 0.5. -/
theorem baseline_error_isolation :
    ∀ (e : String) (rc rg rk : Except String String),
      (baselineAnalysisNode (.error e) rg rk).claude_baseline
        = some { model_type := .claude, content := "Error: " ++ e, confidence := 0 } ∧
      ((baselineAnalysisNode rc rg rk).gpt_baseline
          = (baselineAnalysisNode (.error e) rg rk).gpt_baseline ∧
        (baselineAnalysisNode rc rg rk).grok_baseline
          = (baselineAnalysisNode (.error e) rg rk).grok_baseline) ∧
      (∀ c, rc = .ok c → (baselineAnalysisNode rc rg rk).claude_baseline
          = some { model_type := .claude, content := c, confidence := 1 / 2 }) ∧
      (∀ c, rg = .ok c → (baselineAnalysisNode rc rg rk).gpt_baseline
          = some { model_type := .gpt, content := c, confidence := 1 / 2 }) ∧
      (∀ c, rk = .ok c → (baselineAnalysisNode rc rg rk).grok_baseline
          = some { model_type := .grok, content := c, confidence := 1 / 2 }) := by
  intro e rc rg rk
  refine ⟨rfl, ⟨rfl, rfl⟩, ?_, ?_, ?_⟩ <;> (intro c hc; subst hc; rfl)

/-- Witness for C6 at a concrete failing claude call alongside two
succeeding calls. -/
theorem baseline_error_isolation_witness :
    (baselineAnalysisNode (.error "boom") (.ok "g") (.ok "k")).claude_baseline
      = some { model_type := .claude, content := "Error: " ++ "boom", confidence := 0 } ∧
    (baselineAnalysisNode (.ok "c") (.ok "g") (.ok "k")).gpt_baseline
      = (baselineAnalysisNode (.error "boom") (.ok "g") (.ok "k")).gpt_baseline ∧
    (baselineAnalysisNode (.ok "c") (.ok "g") (.ok "k")).gpt_baseline
      = some { model_type := .gpt, content := "g", confidence := 1 / 2 } := by
  obtain ⟨h1, ⟨h2, h3⟩, h4, h5, h6⟩ :=
    baseline_error_isolation "boom" (.ok "c") (.ok "g") (.ok "k")
  exact ⟨h1, h2, h5 "g" rfl⟩

/-- Claim C7: a query that is empty after stripping fails validation
immediately; the orchestrator returns the error record holding the
validation message, the query and the elapsed time, and the result does
not depend on the pipeline function, so no stage and no adapter ever
runs. -/
theorem empty_query_validation_error :
    ∀ query : String, pyStrip query = "" →
      ∀ {α : Type} (pipeline pipeline2 : InputPackage → α)
        (p1 p2 p3 u c1 c2 c3 : String) (elapsed : ℚ),
        processQuery pipeline query p1 p2 p3 u c1 c2 c3 elapsed
          = Except.error { error := "Input validation failed: " ++ "Query is required",
                           query := query, processing_time := elapsed } ∧
        processQuery pipeline query p1 p2 p3 u c1 c2 c3 elapsed
          = processQuery pipeline2 query p1 p2 p3 u c1 c2 c3 elapsed := by
  intro query h α pipeline pipeline2 p1 p2 p3 u c1 c2 c3 elapsed
  have hv : validateInputs (mkInputPackage query p1 p2 p3 u c1 c2 c3)
      = .error "Query is required" := by
    simp [validateInputs, mkInputPackage, h]
  constructor <;> simp [processQuery, hv]

/-- Witness for C7 at the whitespace-only query with two distinct
pipeline functions. -/
theorem empty_query_validation_error_witness :
    pyStrip "   " = "" ∧
    processQuery (fun _ => (0 : ℕ)) "   " "economic" "environmental" "technological"
        "" "" "" "" 1
      = Except.error { error := "Input validation failed: " ++ "Query is required",
                       query := "   ", processing_time := 1 } ∧
    processQuery (fun _ => (0 : ℕ)) "   " "economic" "environmental" "technological"
        "" "" "" "" 1
      = processQuery (fun _ => (1 : ℕ)) "   " "economic" "environmental" "technological"
        "" "" "" "" 1 := by
  obtain ⟨h1, h2⟩ :=
    empty_query_validation_error "   " (by decide) (fun _ => (0 : ℕ)) (fun _ => (1 : ℕ))
      "economic" "environmental" "technological" "" "" "" "" 1
  exact ⟨by decide, h1, h2⟩

/-- Claim C9: the message handler never closes the connection; an
undecodable payload is answered with the fixed JSON error event, an
unknown decoded command type is answered with an error event naming the
type (the literal None rendering when the type field is absent), and
the connection stays open in every case. -/
theorem client_message_never_drops_connection :
    (∀ m, (handleClientMessage m).connectionClosed = false) ∧
    (handleClientMessage .undecodable).reply = .errorEvent "Invalid JSON format" ∧
    (∀ t : String, t ≠ "start_analysis" → t ≠ "ping" →
      handleClientMessage (.decoded (some t))
        = { reply := .errorEvent ("Unknown message type: " ++ t),
            connectionClosed := false }) ∧
    handleClientMessage (.decoded none)
      = { reply := .errorEvent ("Unknown message type: " ++ "None"),
          connectionClosed := false } := by
  refine ⟨?_, rfl, ?_, by decide⟩
  · intro m
    cases m with
    | undecodable => rfl
    | decoded mt =>
      by_cases h1 : mt = some "start_analysis"
      · simp [handleClientMessage, h1]
      · by_cases h2 : mt = some "ping" <;> simp [handleClientMessage, h1, h2]
  · intro t h1 h2
    simp [handleClientMessage, h1, h2, pyShowOptStr]

/-- Witness for C9 at a concrete unknown command type. -/
theorem client_message_never_drops_connection_witness :
    (handleClientMessage (.decoded (some "bogus"))).connectionClosed = false ∧
    handleClientMessage (.decoded (some "bogus"))
      = { reply := .errorEvent ("Unknown message type: " ++ "bogus"),
          connectionClosed := false } := by
  obtain ⟨h1, h2, h3, h4⟩ := client_message_never_drops_connection
  exact ⟨h1 _, h3 "bogus" (by decide) (by decide)⟩

/-- Claim C10: the advantage metric measures confidence improvement
against the hard-coded constant baseline 0.5: with at least one model
analysis present, the confidence improvement entry is the average of
the present final confidences minus one half, and the entry is
invariant under every change of the stored baseline responses, in
particular under failed baselines with confidence 0.0. -/
theorem advantage_metric_constant_baseline :
    ∀ st : EnsembleState,
      (st.claude_analysis.isSome ∨ st.gpt_analysis.isSome ∨ st.grok_analysis.isSome) →
      advantageConfidenceImprovement st
        = some ((finalConfidences st).sum / ((finalConfidences st).length : ℚ) - 1 / 2) ∧
      ∀ b1 b2 b3,
        advantageConfidenceImprovement
          { st with claude_baseline := b1, gpt_baseline := b2, grok_baseline := b3 }
          = advantageConfidenceImprovement st := by
  intro st hsome
  constructor
  · cases hc : st.claude_analysis <;> cases hg : st.gpt_analysis <;>
      cases hk : st.grok_analysis <;>
      simp [advantageConfidenceImprovement, finalConfidences, hc, hg, hk] at hsome ⊢ <;>
      norm_num
  · intro b1 b2 b3
    rfl

/-- Witness for C10: one model analysis with final confidence 0.9 and a
failed baseline with confidence 0.0 still yields improvement 0.4. -/
theorem advantage_metric_constant_baseline_witness :
    advantageConfidenceImprovement
      { input_package := { query := "q" }
        claude_baseline := some { model_type := .claude, content := "Error: x", confidence := 0 }
        claude_analysis := some { model_type := .claude, final_confidence := 9 / 10 } }
      = some (9 / 10 - 1 / 2) := by
  have h := (advantage_metric_constant_baseline
    { input_package := { query := "q" }
      claude_baseline := some { model_type := .claude, content := "Error: x", confidence := 0 }
      claude_analysis := some { model_type := .claude, final_confidence := 9 / 10 } }
    (Or.inl rfl)).1
  rw [h]
  norm_num [finalConfidences]

/-- Claim C5: with a nonempty final synthesis, every present baseline
gets a length improvement entry equal to the ratio of the synthesis
length to the baseline length capped at 5.0; the value never exceeds
5.0 and a zero-length baseline is treated as length one, so the
denominator is never zero. -/
theorem length_improvement_capped :
    ∀ st : EnsembleState, st.final_synthesis ≠ "" →
      ∀ b : BaselineResponse,
        (st.claude_baseline = some b →
          (performanceLengthMetrics st).claude_length_improvement
            = some (min ((st.final_synthesis.length : ℚ)
                / ((max b.content.length 1 : ℕ) : ℚ)) 5)) ∧
        (st.gpt_baseline = some b →
          (performanceLengthMetrics st).gpt_length_improvement
            = some (min ((st.final_synthesis.length : ℚ)
                / ((max b.content.length 1 : ℕ) : ℚ)) 5)) ∧
        (st.grok_baseline = some b →
          (performanceLengthMetrics st).grok_length_improvement
            = some (min ((st.final_synthesis.length : ℚ)
                / ((max b.content.length 1 : ℕ) : ℚ)) 5)) ∧
        cappedLengthImprovement st.final_synthesis b.content ≤ 5 ∧
        (0 : ℚ) < ((max b.content.length 1 : ℕ) : ℚ) ∧
        (b.content.length = 0 →
          cappedLengthImprovement st.final_synthesis b.content
            = min ((st.final_synthesis.length : ℚ)) 5) := by
  intro st h b
  refine ⟨?_, ?_, ?_, min_le_right _ _, ?_, ?_⟩
  · intro hb
    simp [performanceLengthMetrics, h, hb, cappedLengthImprovement]
  · intro hb
    simp [performanceLengthMetrics, h, hb, cappedLengthImprovement]
  · intro hb
    simp [performanceLengthMetrics, h, hb, cappedLengthImprovement]
  · have : (0 : ℕ) < max b.content.length 1 := lt_max_of_lt_right Nat.one_pos
    exact_mod_cast this
  · intro h0
    simp [cappedLengthImprovement, h0]

/-- A ten-thousand character synthesis for the C5 witness. -/
def bigSynthesis : String := ⟨List.replicate 10000 'a'⟩

/-- The C5 witness run state: a baseline of length one and the long
synthesis. -/
def c5WitnessState : EnsembleState :=
  { input_package := { query := "q" }
    claude_baseline := some { model_type := .claude, content := "x" }
    final_synthesis := bigSynthesis }

/-- Witness for C5: baseline length 1 and synthesis length 10000 give
the capped entry 5.0, not 10000.0. -/
theorem length_improvement_capped_witness :
    c5WitnessState.final_synthesis ≠ "" ∧
    (performanceLengthMetrics c5WitnessState).claude_length_improvement = some 5 := by
  have hlen : bigSynthesis.length = 10000 := by
    show (List.replicate 10000 'a').length = 10000
    exact List.length_replicate 10000 'a'
  have hne : c5WitnessState.final_synthesis ≠ "" := by
    show bigSynthesis ≠ ""
    intro hcontr
    have hz : bigSynthesis.length = 0 := by rw [hcontr]; rfl
    rw [hlen] at hz
    exact absurd hz (by norm_num)
  have h := (length_improvement_capped c5WitnessState hne
      { model_type := .claude, content := "x" }).1 rfl
  refine ⟨hne, ?_⟩
  rw [h]
  have hfs : c5WitnessState.final_synthesis = bigSynthesis := rfl
  have hx : ("x" : String).length = 1 := rfl
  rw [hfs, hlen, hx]
  norm_num [min_def]

/-- A state holding a completed step-1 claude analysis, on which the C2
scenario runs. -/
def step2CexState : EnsembleState :=
  { input_package := { query := "q" }
    claude_analysis := some
      { model_type := .claude
        step1_economic := some { perspective := .economic, content := "econ" } } }

/-- Counterexample to claim C2 as stated: the step-2 adapter call for
claude raises, yet the step-2 slot of the claude analysis is populated
with the rendered error placeholder rather than left empty, because the
per-model wrapper catches the exception and returns the error string. -/
theorem stage_slot_populated_on_adapter_error_cex :
    ((step2Node step2CexState (.error "boom") (.ok "g") (.ok "k")).claude_analysis.map
        fun a => a.step2_economic_environmental)
      = some ("Error in Step 2 analysis: " ++ "boom") ∧
    ("Error in Step 2 analysis: " ++ "boom") ≠ "" := by
  exact ⟨rfl, by decide⟩

/-- Claim C2 amended: a stage slot of a model analysis is rewritten
exactly when the analysis object exists in the state, regardless of
adapter errors; an adapter error is caught inside the per-model wrapper
and stored as a degraded placeholder (error text content, and
confidence 0.0 at step 3), and the slot keeps its previous value only
when the analysis object is absent. -/
theorem stage_slots_follow_analysis_presence :
    ∀ (st : EnsembleState) (cc cg ck : Except String String),
      (st.claude_analysis = none →
        (step2Node st cc cg ck).claude_analysis = none ∧
        (step3Node st cc cg ck).claude_analysis = none) ∧
      (∀ a, st.claude_analysis = some a →
        ((step2Node st cc cg ck).claude_analysis.map
            fun x => x.step2_economic_environmental)
          = some (step2AnalysisOne st.claude_analysis cc) ∧
        ((step3Node st cc cg ck).claude_analysis.map
            fun x => x.step3_complete_synthesis)
          = some (step3SynthesisOne cc).1 ∧
        ((step3Node st cc cg ck).claude_analysis.map fun x => x.final_confidence)
          = some (step3SynthesisOne cc).2) ∧
      (∀ a e, st.claude_analysis = some a → a.step1_economic.isSome = true →
        cc = .error e →
        ((step2Node st cc cg ck).claude_analysis.map
            fun x => x.step2_economic_environmental)
          = some ("Error in Step 2 analysis: " ++ e)) ∧
      (∀ a e, st.claude_analysis = some a → cc = .error e →
        ((step3Node st cc cg ck).claude_analysis.map
            fun x => x.step3_complete_synthesis)
          = some ("Error in final synthesis: " ++ e) ∧
        ((step3Node st cc cg ck).claude_analysis.map fun x => x.final_confidence)
          = some 0) := by
  intro st cc cg ck
  refine ⟨?_, ?_, ?_, ?_⟩
  · intro h
    simp [step2Node, step3Node, step2Update, step3Update, h]
  · intro a ha
    simp [step2Node, step3Node, step2Update, step3Update, ha]
  · intro a e ha hs hc
    subst hc
    obtain ⟨p, hp⟩ := Option.isSome_iff_exists.mp hs
    simp [step2Node, step2Update, step2AnalysisOne, ha, hp]
  · intro a e ha hc
    subst hc
    simp [step3Node, step3Update, step3SynthesisOne, ha]

/-- Witness for the amended C2 at concrete erroring step-2 and step-3
calls over the completed step-1 state. -/
theorem stage_slots_follow_analysis_presence_witness :
    ((step2Node step2CexState (.error "x") (.ok "g") (.ok "k")).claude_analysis.map
        fun a => a.step2_economic_environmental)
      = some ("Error in Step 2 analysis: " ++ "x") ∧
    ((step3Node step2CexState (.error "y") (.ok "g") (.ok "k")).claude_analysis.map
        fun a => a.step3_complete_synthesis)
      = some ("Error in final synthesis: " ++ "y") := by
  obtain ⟨h1, h2, h3, h4⟩ :=
    stage_slots_follow_analysis_presence step2CexState (.error "x") (.ok "g") (.ok "k")
  obtain ⟨g1, g2, g3, g4⟩ :=
    stage_slots_follow_analysis_presence step2CexState (.error "y") (.ok "g") (.ok "k")
  exact ⟨h3 _ "x" rfl rfl rfl, (g4 _ "y" rfl rfl).1⟩

/-- Counterexample to claim C3 as stated: section extraction is not
idempotent, because a matched tag line is consumed; re-extracting the
already-extracted value of a tagged line loses the value. -/
theorem extract_section_not_idempotent_cex :
    extractSection (extractSection "PERSPECTIVE_ANALYSIS: hello" "PERSPECTIVE_ANALYSIS")
        "PERSPECTIVE_ANALYSIS"
      ≠ extractSection "PERSPECTIVE_ANALYSIS: hello" "PERSPECTIVE_ANALYSIS" := by
  decide

/-- Claim C3 amended: section extraction is idempotent exactly on the
degenerate side: re-extraction returns the same value whenever the
first extraction was empty, and whenever the extracted value no longer
contains a line starting with the tag (the usual case for a nonempty
extraction, whose tag line was consumed) re-extraction returns the
empty string instead of the value. -/
theorem extract_section_idempotent_on_empty :
    ∀ content tag : String,
      (extractSection content tag = "" →
        extractSection (extractSection content tag) tag = extractSection content tag) ∧
      ((∀ l ∈ pySplitLines (extractSection content tag),
          pyStartsWith (pyStrip l) (tag ++ ":") = false) →
        extractSection (extractSection content tag) tag = "") := by
  intro content tag
  constructor
  · intro h
    rw [h, extractSection_empty]
  · intro h
    exact extractSection_of_no_match _ _ h

/-- Witness for the amended C3: a tagless text extracts to the empty
string and re-extraction agrees; the nonempty extraction of a tagged
text re-extracts to the empty string. -/
theorem extract_section_idempotent_on_empty_witness :
    extractSection "plain text" "REASONING" = "" ∧
    extractSection (extractSection "plain text" "REASONING") "REASONING"
      = extractSection "plain text" "REASONING" ∧
    extractSection (extractSection "PERSPECTIVE_ANALYSIS: hello" "PERSPECTIVE_ANALYSIS")
        "PERSPECTIVE_ANALYSIS" = "" := by
  refine ⟨by decide, ?_, ?_⟩
  · exact (extract_section_idempotent_on_empty "plain text" "REASONING").1 (by decide)
  · exact (extract_section_idempotent_on_empty "PERSPECTIVE_ANALYSIS: hello"
      "PERSPECTIVE_ANALYSIS").2 (by decide)

/-- Counterexample to claim C8 as stated: the judge module parser does
not share the empty-string convention; on a text with no tagged line it
returns the full content instead of the empty string. -/
theorem judge_missing_section_returns_content_cex :
    judgeUtilExtractSection "hello" "ANALYSIS" = "hello" ∧ ("hello" : String) ≠ "" := by
  exact ⟨by decide, by decide⟩

/-- Claim C8 amended: when no line starts with the tag, the two node
extractors return the empty string, but the judge module extractor
returns the full content: the missing-section convention is empty
string in the pipeline nodes and full passthrough in the judge
utility. -/
theorem missing_section_defaults :
    ∀ content tag : String,
      (∀ l ∈ pySplitLines content, pyStartsWith (pyStrip l) (tag ++ ":") = false) →
      extractSection content tag = "" ∧
      extractJudgeSection content tag = "" ∧
      judgeUtilExtractSection content tag = content := by
  intro content tag h
  exact ⟨extractSection_of_no_match content tag h,
    extractJudgeSection_of_no_match content tag h,
    judgeUtilExtractSection_of_no_match content tag h⟩

/-- Witness for the amended C8 at a concrete tagless text. -/
theorem missing_section_defaults_witness :
    extractSection "just text" "EVALUATION" = "" ∧
    extractJudgeSection "just text" "EVALUATION" = "" ∧
    judgeUtilExtractSection "just text" "EVALUATION" = "just text" :=
  missing_section_defaults "just text" "EVALUATION" (by decide)

/-- Counterexample to claim C1 as stated: the model self-report
confidence is returned as parsed, with no clamping and no range check,
so a reported 3.5 is stored as 3.5, outside the unit interval. -/
theorem confidence_out_of_range_cex :
    extractConfidence "CONFIDENCE: 3.5" = 7 / 2 ∧
    ¬ extractConfidence "CONFIDENCE: 3.5" ≤ 1 := by
  have hfind : (pySplitLines "CONFIDENCE: 3.5").find? confidenceTagMatch
      = some "CONFIDENCE: 3.5" := by decide
  have hparts : pyFloatParts "3.5" = some ⟨false, ['3'], ['5'], false, []⟩ := by decide
  have hpv : partsVal ⟨false, ['3'], ['5'], false, []⟩ = 7 / 2 := by
    have h3 : ('3'.toNat - 48) = 3 := by decide
    have h5 : ('5'.toNat - 48) = 5 := by decide
    norm_num [partsVal, digitsVal, h3, h5]
  have hlv : lineFloatValue "CONFIDENCE: 3.5" = some (7 / 2) := by
    have hA : pyAfterFirst ':' "CONFIDENCE: 3.5" = some " 3.5" := by decide
    have hS : pyStrip " 3.5" = "3.5" := by decide
    simp [lineFloatValue, hA, hS, pyFloat, hparts, hpv]
  have heq : extractConfidence "CONFIDENCE: 3.5" = 7 / 2 := by
    show extractConfidenceGo (pySplitLines "CONFIDENCE: 3.5") = 7 / 2
    rw [extractConfidenceGo_eq_find]
    simp [hfind, hlv]
  exact ⟨heq, by rw [heq]; norm_num⟩

/-- Claim C1 amended: the confidence is parsed as a float from the
first line starting with a confidence tag; a missing tag or a failed
parse yields the documented default 0.7, and a successful parse is
returned unchanged, without clamping, so the stored value can lie
outside the unit interval. -/
theorem confidence_default_and_unclamped :
    ∀ content : String,
      ((pySplitLines content).find? confidenceTagMatch = none →
        extractConfidence content = 7 / 10) ∧
      (∀ l, (pySplitLines content).find? confidenceTagMatch = some l →
        (lineFloatValue l = none → extractConfidence content = 7 / 10) ∧
        (∀ v, lineFloatValue l = some v → extractConfidence content = v)) := by
  intro content
  constructor
  · intro h
    show extractConfidenceGo (pySplitLines content) = 7 / 10
    rw [extractConfidenceGo_eq_find]
    simp [h]
  · intro l hl
    constructor
    · intro hv
      show extractConfidenceGo (pySplitLines content) = 7 / 10
      rw [extractConfidenceGo_eq_find]
      simp [hl, hv]
    · intro v hv
      show extractConfidenceGo (pySplitLines content) = v
      rw [extractConfidenceGo_eq_find]
      simp [hl, hv]

/-- Witness for the amended C1: a parsed in-range value is returned and
a tagless text receives the default. -/
theorem confidence_default_and_unclamped_witness :
    extractConfidence "FINAL_CONFIDENCE: 0.9" = 9 / 10 ∧
    extractConfidence "no tag" = 7 / 10 := by
  have hfind : (pySplitLines "FINAL_CONFIDENCE: 0.9").find? confidenceTagMatch
      = some "FINAL_CONFIDENCE: 0.9" := by decide
  have hparts : pyFloatParts "0.9" = some ⟨false, ['0'], ['9'], false, []⟩ := by decide
  have hpv : partsVal ⟨false, ['0'], ['9'], false, []⟩ = 9 / 10 := by
    have h0 : ('0'.toNat - 48) = 0 := by decide
    have h9 : ('9'.toNat - 48) = 9 := by decide
    norm_num [partsVal, digitsVal, h0, h9]
  have hlv : lineFloatValue "FINAL_CONFIDENCE: 0.9" = some (9 / 10) := by
    have hA : pyAfterFirst ':' "FINAL_CONFIDENCE: 0.9" = some " 0.9" := by decide
    have hS : pyStrip " 0.9" = "0.9" := by decide
    simp [lineFloatValue, hA, hS, pyFloat, hparts, hpv]
  have hnone : (pySplitLines "no tag").find? confidenceTagMatch = none := by decide
  exact ⟨((confidence_default_and_unclamped "FINAL_CONFIDENCE: 0.9").2 _ hfind).2 _ hlv,
    (confidence_default_and_unclamped "no tag").1 hnone⟩

/-- Claim C4: both judge score extractors always return a value in the
unit interval; a missing score tag or a failed parse yields the default
0.5, and a parsed value is clamped into the unit interval (the judge
utility additionally strips square brackets before parsing). -/
theorem judge_scores_clamped :
    ∀ content name : String,
      (0 ≤ extractJudgeScore content name ∧ extractJudgeScore content name ≤ 1) ∧
      (0 ≤ judgeUtilExtractScore content name ∧ judgeUtilExtractScore content name ≤ 1) ∧
      ((pySplitLines content).find? (tagMatch name) = none →
        extractJudgeScore content name = 1 / 2 ∧
        judgeUtilExtractScore content name = 1 / 2) ∧
      (∀ l, (pySplitLines content).find? (tagMatch name) = some l →
        (lineFloatValue l = none → extractJudgeScore content name = 1 / 2) ∧
        (lineBracketFloatValue l = none → judgeUtilExtractScore content name = 1 / 2) ∧
        (∀ v, lineFloatValue l = some v →
          extractJudgeScore content name = max 0 (min 1 v)) ∧
        (∀ v, lineBracketFloatValue l = some v →
          judgeUtilExtractScore content name = max 0 (min 1 v))) := by
  intro content name
  refine ⟨?_, ?_, ?_, ?_⟩
  · show 0 ≤ extractJudgeScoreGo name (pySplitLines content) ∧
      extractJudgeScoreGo name (pySplitLines content) ≤ 1
    rw [scoreGo_as_clamp]
    exact clampFindResult_bounds _ _
  · show 0 ≤ judgeUtilExtractScoreGo name (pySplitLines content) ∧
      judgeUtilExtractScoreGo name (pySplitLines content) ≤ 1
    rw [judgeUtilGo_as_clamp]
    exact clampFindResult_bounds _ _
  · intro h
    constructor
    · show extractJudgeScoreGo name (pySplitLines content) = 1 / 2
      rw [extractJudgeScoreGo_eq_find]
      simp [h]
    · show judgeUtilExtractScoreGo name (pySplitLines content) = 1 / 2
      rw [judgeUtilExtractScoreGo_eq_find]
      simp [h]
  · intro l hl
    refine ⟨?_, ?_, ?_, ?_⟩
    · intro hv
      show extractJudgeScoreGo name (pySplitLines content) = 1 / 2
      rw [extractJudgeScoreGo_eq_find]
      simp [hl, hv]
    · intro hv
      show judgeUtilExtractScoreGo name (pySplitLines content) = 1 / 2
      rw [judgeUtilExtractScoreGo_eq_find]
      simp [hl, hv]
    · intro v hv
      show extractJudgeScoreGo name (pySplitLines content) = max 0 (min 1 v)
      rw [extractJudgeScoreGo_eq_find]
      simp [hl, hv]
    · intro v hv
      show judgeUtilExtractScoreGo name (pySplitLines content) = max 0 (min 1 v)
      rw [judgeUtilExtractScoreGo_eq_find]
      simp [hl, hv]

/-- Witness for C4: an out-of-range score 1.7 is clamped to 1, a
bracketed 0.8 parses to 0.8 after bracket removal, and a tagless text
receives the 0.5 default from both extractors. -/
theorem judge_scores_clamped_witness :
    extractJudgeScore "CLAUDE_SCORE: 1.7" "CLAUDE_SCORE" = 1 ∧
    judgeUtilExtractScore "GROK_SCORE: [0.8]" "GROK_SCORE" = 8 / 10 ∧
    extractJudgeScore "nothing here" "GPT_SCORE" = 1 / 2 ∧
    judgeUtilExtractScore "nothing here" "GPT_SCORE" = 1 / 2 := by
  have hfind1 : (pySplitLines "CLAUDE_SCORE: 1.7").find? (tagMatch "CLAUDE_SCORE")
      = some "CLAUDE_SCORE: 1.7" := by decide
  have hlv1 : lineFloatValue "CLAUDE_SCORE: 1.7" = some (17 / 10) := by
    have hA : pyAfterFirst ':' "CLAUDE_SCORE: 1.7" = some " 1.7" := by decide
    have hS : pyStrip " 1.7" = "1.7" := by decide
    have hparts : pyFloatParts "1.7" = some ⟨false, ['1'], ['7'], false, []⟩ := by decide
    have hpv : partsVal ⟨false, ['1'], ['7'], false, []⟩ = 17 / 10 := by
      have h1 : ('1'.toNat - 48) = 1 := by decide
      have h7 : ('7'.toNat - 48) = 7 := by decide
      norm_num [partsVal, digitsVal, h1, h7]
    simp [lineFloatValue, hA, hS, pyFloat, hparts, hpv]
  have hfind2 : (pySplitLines "GROK_SCORE: [0.8]").find? (tagMatch "GROK_SCORE")
      = some "GROK_SCORE: [0.8]" := by decide
  have hlv2 : lineBracketFloatValue "GROK_SCORE: [0.8]" = some (8 / 10) := by
    have hA : pyAfterFirst ':' "GROK_SCORE: [0.8]" = some " [0.8]" := by decide
    have hB : pyStrip (removeBrackets (pyStrip " [0.8]")) = "0.8" := by decide
    have hparts : pyFloatParts "0.8" = some ⟨false, ['0'], ['8'], false, []⟩ := by decide
    have hpv : partsVal ⟨false, ['0'], ['8'], false, []⟩ = 8 / 10 := by
      have h0 : ('0'.toNat - 48) = 0 := by decide
      have h8 : ('8'.toNat - 48) = 8 := by decide
      norm_num [partsVal, digitsVal, h0, h8]
    simp [lineBracketFloatValue, hA, hB, pyFloat, hparts, hpv]
  have hnone : (pySplitLines "nothing here").find? (tagMatch "GPT_SCORE") = none := by decide
  refine ⟨?_, ?_, ?_, ?_⟩
  · have h := (((judge_scores_clamped "CLAUDE_SCORE: 1.7" "CLAUDE_SCORE").2.2.2
      _ hfind1).2.2.1) _ hlv1
    rw [h]
    norm_num [min_def, max_def]
  · have h := (((judge_scores_clamped "GROK_SCORE: [0.8]" "GROK_SCORE").2.2.2
      _ hfind2).2.2.2) _ hlv2
    rw [h]
    norm_num [min_def, max_def]
  · exact ((judge_scores_clamped "nothing here" "GPT_SCORE").2.2.1 hnone).1
  · exact ((judge_scores_clamped "nothing here" "GPT_SCORE").2.2.1 hnone).2

end LLMEnsemble
